import Mathlib

/-!
Verification development for the Twitter news bot (`src/bot.py`).

Strings are modelled as `List Char` (one element per Unicode code point,
matching Python's `len`/indexing semantics).  The source file is stored with
mojibake-encoded markers: the news prefix is the five code points "ðŸ“° ",
the tweet bullet is the four code points "â–¸ ", and the summary-parsing
bullet is the three code points "â€¢"; the embedding reproduces those
literals byte-for-byte as they appear in the source.

External collaborators (OpenAI, Twitter API, the image host, the headless
browser, the filesystem) are modelled as explicit parameters: a fallible
call becomes an `Except`/`Option` value, and the filesystem becomes the
list of existing paths, threaded through each operation.
-/

namespace Bot

/-- Python-style strings: one `Char` per code point. -/
abbrev Str := List Char

/-- Python `str.strip()`: drop whitespace from both ends. -/
def pyStrip (s : Str) : Str :=
  ((s.dropWhile Char.isWhitespace).reverse.dropWhile Char.isWhitespace).reverse

/-- Python `str.strip(chars)`: drop any character of the set `cs` from both ends. -/
def pyStripChars (s : Str) (cs : Str) : Str :=
  ((s.dropWhile (cs.contains ·)).reverse.dropWhile (cs.contains ·)).reverse

/-- Python slice `s[:k]` for a (possibly negative) integer bound `k`. -/
def pySliceTo (s : Str) (k : Int) : Str :=
  if 0 ≤ k then s.take k.toNat else s.take (s.length - (-k).toNat)

/-- `Path(p).unlink(missing_ok=True)` on a filesystem modelled as the list of
existing paths. -/
def unlink (fs : List Str) (p : Str) : List Str :=
  fs.filter (fun q => decide (q ≠ p))

/-! ## TweetFormatter: `build_tweet_text` (src/bot.py lines 881-893) -/

/-- `TwitterNewsBot.build_tweet_text`: select among the three formatting
tiers (full / abbreviated / minimal), returning the stripped text and the
tier tag.  Direct transcription of the Python body, including the
mojibake news-prefix (5 chars) and bullet (4 chars) literals. -/
def build_tweet_text (headline : Str) (key_points : List Str) : Str × Str :=
  let key_points := key_points.take 3
  let headline := pyStrip headline
  let full_format := "ðŸ“° ".data ++ headline ++ "\n\n".data
      ++ List.intercalate "\n".data (key_points.map (fun p => "â–¸ ".data ++ p))
      ++ "\n\n".data
  let abbreviated := "ðŸ“° ".data ++ headline ++ "\n\n".data
      ++ (match key_points with | [] => ([] : Str) | p :: _ => "â–¸ ".data ++ p)
      ++ "\n\n".data
  let minimal := "ðŸ“° ".data ++ headline ++ "\n\n".data
  if full_format.length ≤ 260 then (pyStrip full_format, "full".data)
  else if abbreviated.length ≤ 280 then (pyStrip abbreviated, "abbreviated".data)
  else (pyStrip minimal, "minimal".data)

/-- Spec-side tier form "full": headline plus up to 3 bulleted points with a
trailing blank line (from the claim's words, for comparison with the source). -/
def tierFullForm (h : Str) (kps : List Str) : Str :=
  "ðŸ“° ".data ++ h ++ "\n\n".data
    ++ List.intercalate "\n".data (kps.map (fun p => "â–¸ ".data ++ p))
    ++ "\n\n".data

/-- Spec-side tier form "abbreviated": headline plus only the first key point
(if any). -/
def tierAbbreviatedForm (h : Str) (kps : List Str) : Str :=
  "ðŸ“° ".data ++ h ++ "\n\n".data
    ++ (match kps with | [] => ([] : Str) | p :: _ => "â–¸ ".data ++ p)
    ++ "\n\n".data

/-- Spec-side tier form "minimal": headline alone. -/
def tierMinimalForm (h : Str) : Str :=
  "ðŸ“° ".data ++ h ++ "\n\n".data

/-! ## Summarizer: `summarize_news` (src/bot.py lines 198-255) -/

/-- A normalized news record as built by the fetchers. -/
structure NewsItem where
  title : Str
  description : Str
  url : Str
  published_at : Str
  source : Str
deriving DecidableEq, Repr

/-- The `"HEADLINE:"` marker the parser looks for. -/
def headlineMarker : Str := "HEADLINE:".data

/-- The bullet marker of the summary parser (the three mojibake code points
"â€¢" as stored in the source, lines 244-245). -/
def bulletMarker : Str := "â€¢".data

/-- The character set stripped from bullet lines: `line.strip("â€¢ ")`. -/
def bulletStripSet : Str := "â€¢ ".data

/-- The line-by-line parsing loop of `summarize_news` (lines 239-245): a
`HEADLINE:`-prefixed line (re)sets the headline to the remainder, stripped;
otherwise a line whose stripped form starts with the bullet marker is
collected, stripped of the bullet/space character set.  `splitlines()` is
modelled as splitting at `'\n'`; a trailing empty segment matches neither
marker so the difference from Python is unobservable here. -/
def parseSummary (content : Str) : Str × List Str :=
  (List.splitOn '\n' content).foldl
    (fun acc line =>
      if headlineMarker.isPrefixOf line then
        (pyStrip (line.drop headlineMarker.length), acc.2)
      else if bulletMarker.isPrefixOf (pyStrip line) then
        (acc.1, acc.2 ++ [pyStripChars line bulletStripSet])
      else acc)
    (([] : Str), ([] : List Str))

/-- `TwitterNewsBot.summarize_news`, with the OpenAI chat call abstracted as
`oa : Except Unit Str` (an exception, or the returned message content).
Returns `(headline, key_points)`. -/
def summarize_news (oa : Except Unit Str) (news_items : List NewsItem) :
    Str × List Str :=
  match news_items with
  | [] => ("Latest news update".data, ["Stay informed".data])
  | item0 :: rest =>
    match oa with
    | .error _ =>
      let points := (rest.take 3).map (·.title)
      (item0.title, if points = [] then ["Stay informed".data] else points)
    | .ok content =>
      let parsed := parseSummary content
      let headline := if parsed.1 = [] then item0.title else parsed.1
      let key_points :=
        if parsed.2 = [] then ((item0 :: rest).take 3).map (·.title) else parsed.2
      (headline, key_points.take 3)

/-! ## Publisher: `post_tweet` (src/bot.py lines 835-876) -/

/-- Outcome of the platform media-upload-and-post attempt
(`media_upload` + `create_tweet` inside the `try` block): success, the
tweepy `Forbidden` error, or any other exception. -/
inductive UploadOutcome where
  | ok
  | forbidden
  | err
deriving DecidableEq, Repr

/-- The result record returned by `post_tweet`. -/
structure PostResult where
  success : Bool
  tweetId : Option Str
  tweetText : Str
  imageUrl : Option Str
deriving DecidableEq, Repr

/-- `TwitterNewsBot.post_tweet`, with collaborators abstracted: `fs` is the
set of existing local files, `upload` the outcome of the platform media
attempt, `host_url` the value returned by `upload_to_uploadme` (`none` for
`None`, `some url` for a string; the Python truthiness test `if image_url:`
also sends the empty string to the no-URL arm), and `idMedia`/`idText` the
tweet ids returned by the two `create_tweet` endpoints.  Returns the result
record and the updated filesystem. -/
def post_tweet (text : Str) (media_path : Option Str) (fs : List Str)
    (upload : UploadOutcome) (host_url : Option Str)
    (idMedia idText : Str) : PostResult × List Str :=
  match media_path with
  | none =>
    ({success := true, tweetId := some idText, tweetText := text, imageUrl := none}, fs)
  | some p =>
    if p ∈ fs then
      match upload with
      | .ok =>
        ({success := true, tweetId := some idMedia, tweetText := text, imageUrl := none},
         unlink fs p)
      | .forbidden =>
        let image_url := host_url
        let fs1 := unlink fs p
        match image_url with
        | some url =>
          if url = [] then
            ({success := true, tweetId := some idText, tweetText := text,
              imageUrl := some url}, fs1)
          else
            let available : Int := 280 - url.length - 1
            let final_text :=
              if (text.length : Int) > available then
                pySliceTo text (available - 3) ++ "...".data
              else text
            let final_text := final_text ++ "\n".data ++ url
            ({success := true, tweetId := some idText, tweetText := final_text,
              imageUrl := some url}, fs1)
        | none =>
          ({success := true, tweetId := some idText, tweetText := text,
            imageUrl := none}, fs1)
      | .err =>
        ({success := true, tweetId := some idText, tweetText := text, imageUrl := none},
         unlink fs p)
    else
      ({success := true, tweetId := some idText, tweetText := text, imageUrl := none}, fs)

/-! ## MediaAcquirer: `_capture_screenshot` (lines 562-691) and
`generate_screenshot` (lines 737-809)

Collaborator behaviours are abstracted into a `CaptureEnv`: whether
pyppeteer is importable, whether a Chromium executable is found, whether
`launch(...)` succeeds, whether the calls inside the `try` block succeed,
and what file (if any) the capture produces.  URL/selector strings do not
influence which control-flow branch is taken, so they are not modelled.
An `Except.error` result models a Python exception propagating to the
caller. -/

/-- Environment describing the behaviour of the browser collaborators for
one screenshot attempt. -/
structure CaptureEnv where
  pyppeteerInstalled : Bool
  chromiumFound : Bool
  launchOk : Bool
  insideOk : Bool
  fileCreated : Bool
  fileSize : Nat
  shotPath : Str
deriving DecidableEq, Repr

/-- `TwitterNewsBot._capture_screenshot`.  Faithful to the source's
exception structure: the `launch(...)` call sits before the `try` block
(line 587), so a launch failure propagates (`Except.error`); every failure
inside the `try` block is caught and converted to `none` (lines 686-688);
on success the file is validated to exist and to be at least 1000 bytes
(lines 675-684). -/
def capture_screenshot (env : CaptureEnv) : Except Unit (Option Str) :=
  if ¬ env.pyppeteerInstalled then .ok none
  else if ¬ env.chromiumFound then .ok none
  else if ¬ env.launchOk then .error ()
  else if ¬ env.insideOk then .ok none
  else if env.fileCreated then
    if env.fileSize < 1000 then .ok none else .ok (some env.shotPath)
  else .ok none

/-- `TwitterNewsBot.generate_screenshot`.  `download` abstracts the result
of `_download_chart_image` (which catches all its own exceptions and
returns a path or `None`); for the `crypto-chart` target a successful
download is returned directly, otherwise the browser chain runs.  A
`_capture_screenshot` failure propagates through `asyncio.run` to the
caller unchanged. -/
def generate_screenshot (target : Str) (env : CaptureEnv)
    (download : Option Str) : Except Unit (Option Str) :=
  let target := if target = [] then "crypto-chart".data else target
  if target = "crypto-chart".data then
    match download with
    | some chart_image => .ok (some chart_image)
    | none =>
      if ¬ env.pyppeteerInstalled then .ok none
      else capture_screenshot env
  else if target = "crypto-ticker".data then
    if ¬ env.pyppeteerInstalled then .ok none
    else capture_screenshot env
  else
    if ¬ env.pyppeteerInstalled then .ok none
    else capture_screenshot env

/-! ## Pipeline: `run` (src/bot.py lines 895-963) -/

/-- The option record after merging defaults (lines 896-907); the two
news-category toggles are reflected in the `news_items` parameter of
`run` below. -/
structure RunOpts where
  use_image : Bool
  image_generation_type : Str
  screenshot_target : Str
  dry_run : Bool
  use_openai_image_only : Bool
deriving DecidableEq, Repr

/-- Which pipeline stages executed during one `run` invocation. -/
structure RunTrace where
  summarizeCalled : Bool
  formatCalled : Bool
  mediaCalled : Bool
  publishCalled : Bool
deriving DecidableEq, Repr

/-- The dictionary returned by `run` (and by `post_tweet`), with `none`
standing for an absent key. -/
structure RunResult where
  success : Bool
  dryRun : Option Bool := none
  tweetText : Option Str := none
  tweetId : Option Str := none
  imageUrl : Option Str := none
  error : Option Str := none
  format : Option Str := none
  headline : Option Str := none
  keyPoints : Option (List Str) := none
deriving DecidableEq, Repr

/-- `TwitterNewsBot.run`.  `news_items` is the concatenation of the enabled
category fetches; `oa` the OpenAI call outcome; `mediaResult` the path
returned by whichever media generator the configured mode selects (the
generators return `Option`, their exception path being analysed separately
on the `capture_screenshot` model); the remaining parameters feed
`post_tweet`.  Returns the result record, the stage trace, and the final
filesystem. -/
def run (opts : RunOpts) (news_items : List NewsItem) (oa : Except Unit Str)
    (mediaResult : Option Str) (upload : UploadOutcome) (host_url : Option Str)
    (idMedia idText : Str) (fs : List Str) :
    RunResult × RunTrace × List Str :=
  match news_items with
  | [] =>
    ({success := false, error := some "No news items found".data},
     {summarizeCalled := false, formatCalled := false, mediaCalled := false,
      publishCalled := false}, fs)
  | item0 :: rest =>
    let s := summarize_news oa (item0 :: rest)
    let t := build_tweet_text s.1 s.2
    let media_path : Option Str := if opts.use_image then mediaResult else none
    if opts.dry_run then
      let fs1 := match media_path with | some p => unlink fs p | none => fs
      ({success := true, dryRun := some true, tweetText := some t.1,
        format := some t.2},
       {summarizeCalled := true, formatCalled := true, mediaCalled := opts.use_image,
        publishCalled := false}, fs1)
    else
      let pr := post_tweet t.1 media_path fs upload host_url idMedia idText
      ({success := pr.1.success, tweetText := some pr.1.tweetText,
        tweetId := pr.1.tweetId, imageUrl := pr.1.imageUrl,
        headline := some s.1, keyPoints := some s.2, format := some t.2},
       {summarizeCalled := true, formatCalled := true, mediaCalled := opts.use_image,
        publishCalled := true}, pr.2)

/-! ## Helper lemmas -/

theorem dropWhile_length_le {α : Type} (p : α → Bool) (l : List α) :
    (l.dropWhile p).length ≤ l.length := by
  induction l with
  | nil => simp
  | cons a l ih =>
    rw [List.dropWhile_cons]
    split
    · exact Nat.le_trans ih (Nat.le_succ _)
    · simp

theorem pyStrip_length_le (s : Str) : (pyStrip s).length ≤ s.length := by
  unfold pyStrip
  have h1 := dropWhile_length_le Char.isWhitespace s
  have h2 := dropWhile_length_le Char.isWhitespace
    (s.dropWhile Char.isWhitespace).reverse
  simp only [List.length_reverse] at h2 ⊢
  omega

theorem pyStrip_append_newlines_length (s : Str) :
    (pyStrip (s ++ "\n\n".data)).length ≤ s.length := by
  unfold pyStrip
  rw [List.dropWhile_append]
  split
  · -- the whole of `s` is whitespace; both '\n' are dropped as well
    simp
  · rename_i hne
    rw [List.reverse_append]
    have hnl : List.dropWhile Char.isWhitespace ("\n\n".data.reverse
        ++ (s.dropWhile Char.isWhitespace).reverse) =
        List.dropWhile Char.isWhitespace (s.dropWhile Char.isWhitespace).reverse := by
      simp [List.dropWhile_append]
    rw [hnl]
    have h1 := dropWhile_length_le Char.isWhitespace
      (s.dropWhile Char.isWhitespace).reverse
    have h2 := dropWhile_length_le Char.isWhitespace s
    simp only [List.length_reverse] at h1 ⊢
    omega

/-! ## Claim C1 -/

set_option maxRecDepth 8000

/-- C1 counterexample: the claim "for every headline and key points the
text returned by `build_tweet_text` has length at most 280" is false: a
281-character headline forces the minimal tier, whose text is the
5-character news prefix plus the headline, 286 characters. -/
theorem build_tweet_text_can_exceed_280 :
    280 < (build_tweet_text (List.replicate 281 'a') []).1.length := by decide

/-- C1 (amended): if the stripped headline has at most 275 characters, the
text returned by `build_tweet_text` has length at most 280 — the full and
abbreviated tiers are selected only under their 260/280 length tests, and
the minimal tier is the 5-character news prefix plus the stripped
headline. -/
theorem build_tweet_text_length_le_280 (headline : Str) (key_points : List Str)
    (h : (pyStrip headline).length ≤ 275) :
    (build_tweet_text headline key_points).1.length ≤ 280 := by
  simp only [build_tweet_text]
  split
  · rename_i hfull
    exact le_trans (pyStrip_length_le _) (le_trans hfull (by omega))
  · split
    · rename_i habbrev
      exact le_trans (pyStrip_length_le _) habbrev
    · have hmin := pyStrip_append_newlines_length ("ðŸ“° ".data ++ pyStrip headline)
      rw [List.append_assoc] at hmin
      have hpre : ("ðŸ“° ".data : Str).length = 5 := rfl
      refine le_trans hmin ?_
      rw [List.length_append, hpre]
      omega

/-- C1 witness: a concrete headline within the bound. -/
theorem build_tweet_text_length_le_280_witness :
    (pyStrip "Hello".data).length ≤ 275 ∧
      (build_tweet_text "Hello".data ["a".data, "b".data]).1.length ≤ 280 :=
  ⟨by decide, build_tweet_text_length_le_280 "Hello".data ["a".data, "b".data]
    (by decide)⟩

/-! ## Claim C8 -/

/-- C8: the tiers are evaluated strictly in the order full, abbreviated,
minimal, and the first passing its length test is returned: the full form
if its length is at most 260, else the abbreviated form if its length is
at most 280, else the minimal form unconditionally, the returned text
being the selected form stripped of leading and trailing whitespace (the
forms are built from the stripped headline and the first 3 key points). -/
theorem build_tweet_text_tier_selection (headline : Str) (key_points : List Str) :
    build_tweet_text headline key_points =
      (if (tierFullForm (pyStrip headline) (key_points.take 3)).length ≤ 260 then
        (pyStrip (tierFullForm (pyStrip headline) (key_points.take 3)), "full".data)
      else if (tierAbbreviatedForm (pyStrip headline) (key_points.take 3)).length
          ≤ 280 then
        (pyStrip (tierAbbreviatedForm (pyStrip headline) (key_points.take 3)),
         "abbreviated".data)
      else (pyStrip (tierMinimalForm (pyStrip headline)), "minimal".data)) := rfl

/-! ## Claim C4 -/

/-- C4 counterexample: the claim says the unparseable-output fallback also
yields the titles of items[1:4]; the code instead uses the titles of
items[:3].  With two items titled "A" and "B" and unparseable model
output, the key points are ["A", "B"], not ["B"]. -/
theorem summarize_news_unparseable_fallback_counterexample :
    (summarize_news (Except.ok "junk".data)
        [⟨"A".data, [], [], [], []⟩, ⟨"B".data, [], [], [], []⟩]).2 ≠
      ["B".data] := by decide

/-- C4 (amended): for a non-empty item list, a generation-call exception
yields headline = first item's title and key points = titles of
items[1:4], or ["Stay informed"] if no items remain after the first;
returned text from which no headline and no bullet points can be parsed
instead yields headline = first item's title and key points = the titles
of items[:3]. -/
theorem summarize_news_fallbacks (item0 : NewsItem) (rest : List NewsItem) :
    summarize_news (Except.error ()) (item0 :: rest) =
        (item0.title,
          if rest = [] then ["Stay informed".data]
          else (rest.take 3).map NewsItem.title) ∧
      ∀ content, parseSummary content = ([], []) →
        summarize_news (Except.ok content) (item0 :: rest) =
          (item0.title, ((item0 :: rest).take 3).map NewsItem.title) := by
  constructor
  · simp only [summarize_news]
    cases rest with
    | nil => simp
    | cons b l => simp
  · intro content hpc
    have hlen : (((item0 :: rest).take 3).map NewsItem.title).length ≤ 3 := by
      simp [List.length_take]
    simp [summarize_news, hpc, List.take_of_length_le hlen]

/-- C4 witness: both amended branches at concrete inputs. -/
theorem summarize_news_fallbacks_witness :
    summarize_news (Except.error ())
        [⟨"A".data, [], [], [], []⟩, ⟨"B".data, [], [], [], []⟩] =
        ("A".data, ["B".data]) ∧
      summarize_news (Except.ok "junk".data)
        [⟨"A".data, [], [], [], []⟩, ⟨"B".data, [], [], [], []⟩] =
        ("A".data, ["A".data, "B".data]) := by
  have h := summarize_news_fallbacks ⟨"A".data, [], [], [], []⟩
    [⟨"B".data, [], [], [], []⟩]
  exact ⟨h.1.trans (by decide), (h.2 "junk".data (by decide)).trans (by decide)⟩

/-! ## Claim C9 -/

/-- C9 counterexample: the claim "for every non-empty news item list the
headline is non-empty" fails when the first item's title is itself empty:
on the exception fallback the empty title is returned as headline. -/
theorem summarize_news_empty_headline_counterexample :
    (summarize_news (Except.error ()) [⟨[], [], [], [], []⟩]).1 = [] := by decide

/-- C9 (amended): for every non-empty news item list whose first item has a
non-empty title, `summarize_news` returns a non-empty headline, whether the
generation call succeeds, raises, or returns unparseable text. -/
theorem summarize_news_headline_nonempty (oa : Except Unit Str)
    (item0 : NewsItem) (rest : List NewsItem) (h : item0.title ≠ []) :
    (summarize_news oa (item0 :: rest)).1 ≠ [] := by
  cases oa with
  | error e => simpa [summarize_news] using h
  | ok content =>
    simp only [summarize_news]
    split
    · exact h
    · rename_i hne
      exact hne

/-- C9 witness: a concrete item with non-empty title. -/
theorem summarize_news_headline_nonempty_witness :
    (("A".data : Str) ≠ []) ∧
      (summarize_news (Except.error ()) [⟨"A".data, [], [], [], []⟩]).1 ≠ [] :=
  ⟨by decide, summarize_news_headline_nonempty (Except.error ())
    ⟨"A".data, [], [], [], []⟩ [] (by decide)⟩

/-! ## Claim C10 -/

/-- C10: on every path (empty input, generation-call exception, parsed
output, unparseable-output fallback) `summarize_news` returns a key-point
list with at least 1 and at most 3 elements. -/
theorem summarize_news_key_points_count (oa : Except Unit Str)
    (news_items : List NewsItem) :
    1 ≤ (summarize_news oa news_items).2.length ∧
      (summarize_news oa news_items).2.length ≤ 3 := by
  match news_items with
  | [] => simp [summarize_news]
  | item0 :: rest =>
    cases oa with
    | error e =>
      simp only [summarize_news]
      split
      · simp
      · rename_i hne
        constructor
        · exact Nat.one_le_iff_ne_zero.mpr fun h0 =>
            hne (List.eq_nil_of_length_eq_zero h0)
        · simp [List.length_take]
    | ok content =>
      simp only [summarize_news]
      constructor
      · have hne : (if (parseSummary content).2 = [] then
            ((item0 :: rest).take 3).map NewsItem.title
          else (parseSummary content).2) ≠ [] := by
          split
          · simp
          · rename_i hp
            exact hp
        rcases h : (if (parseSummary content).2 = [] then
            ((item0 :: rest).take 3).map NewsItem.title
          else (parseSummary content).2) with _ | ⟨a, l⟩
        · exact absurd h hne
        · simp [h]
      · simp [List.length_take]

/-! ## Claim C2 -/

theorem not_mem_unlink (fs : List Str) (p : Str) : p ∉ unlink fs p := by
  intro hmem
  rw [unlink, List.mem_filter] at hmem
  simp at hmem

/-- C2: for every call to `post_tweet` with a media path whose file exists,
the media file has been deleted by the time the call returns, in every
branch — successful media post, forbidden fallback with or without a
hosted URL, and any other upload exception. -/
theorem post_tweet_deletes_media (text p : Str) (fs : List Str)
    (upload : UploadOutcome) (host_url : Option Str) (idMedia idText : Str)
    (hp : p ∈ fs) :
    p ∉ (post_tweet text (some p) fs upload host_url idMedia idText).2 := by
  simp only [post_tweet, if_pos hp]
  cases upload with
  | ok => exact not_mem_unlink fs p
  | forbidden =>
    cases host_url with
    | none => exact not_mem_unlink fs p
    | some url =>
      by_cases hurl : url = []
      · simp only [if_pos hurl]
        exact not_mem_unlink fs p
      · simp only [if_neg hurl]
        exact not_mem_unlink fs p
  | err => exact not_mem_unlink fs p

/-- C2 witness: a concrete existing media file, deleted by the call. -/
theorem post_tweet_deletes_media_witness :
    (("m".data : Str) ∈ (["m".data] : List Str)) ∧
      "m".data ∉ (post_tweet "t".data (some "m".data) ["m".data]
        UploadOutcome.ok none "i".data "j".data).2 :=
  ⟨by decide, post_tweet_deletes_media "t".data "m".data ["m".data]
    UploadOutcome.ok none "i".data "j".data (by decide)⟩

/-! ## Claim C6 -/

/-- C6 counterexample: with a 278-character hosted URL, `available` is 1
and the slice bound `available - 3` is negative, so Python's negative
slicing keeps all but the last two characters of the text; with text "abc"
the posted text has 283 characters, violating the claimed 280 bound. -/
theorem post_tweet_hosted_url_counterexample :
    ¬ ((post_tweet "abc".data (some "m".data) ["m".data]
        UploadOutcome.forbidden (some (List.replicate 278 'u'))
        "i".data "j".data).1.tweetText.length ≤ 280) := by decide

/-- C6 (amended): when the platform upload raises the forbidden error, the
image host returns a non-empty URL, and the URL has at most 276 characters,
then the posted text ends with the URL, has length at most 280, equals the
original text followed by a newline and the URL when the original fits the
reserved 280 - url_length - 1 characters, and otherwise is the original
truncated to exactly (280 - url_length - 1) - 3 characters plus an
ellipsis, newline and URL, for a total of exactly 280. -/
theorem post_tweet_hosted_url_fallback (text p : Str) (fs : List Str)
    (idMedia idText : Str) (url : Str) (hfs : p ∈ fs) (hne : url ≠ [])
    (hlen : url.length ≤ 276) :
    (∃ s, (post_tweet text (some p) fs UploadOutcome.forbidden (some url)
        idMedia idText).1.tweetText = s ++ url) ∧
      (post_tweet text (some p) fs UploadOutcome.forbidden (some url)
        idMedia idText).1.tweetText.length ≤ 280 ∧
      (text.length ≤ 280 - url.length - 1 →
        (post_tweet text (some p) fs UploadOutcome.forbidden (some url)
          idMedia idText).1.tweetText = text ++ "\n".data ++ url) ∧
      (280 - url.length - 1 < text.length →
        (post_tweet text (some p) fs UploadOutcome.forbidden (some url)
            idMedia idText).1.tweetText =
            text.take (280 - url.length - 1 - 3) ++ "...".data ++ "\n".data ++ url ∧
          (post_tweet text (some p) fs UploadOutcome.forbidden (some url)
            idMedia idText).1.tweetText.length = 280) := by
  simp only [post_tweet, if_pos hfs, if_neg hne]
  by_cases hc : (text.length : Int) > 280 - (url.length : Int) - 1
  · rw [if_pos hc]
    have hslice : pySliceTo text (280 - (url.length : Int) - 1 - 3) =
        text.take (280 - url.length - 1 - 3) := by
      rw [pySliceTo, if_pos (by omega)]
      congr 1
      omega
    have htake : (text.take (280 - url.length - 1 - 3)).length =
        280 - url.length - 1 - 3 := by
      rw [List.length_take]
      omega
    refine ⟨⟨_, by rw [List.append_assoc]⟩, ?_, ?_, ?_⟩
    · simp only [hslice, List.length_append, htake, List.length_cons,
        List.length_nil]
      omega
    · intro hfit
      omega
    · intro _
      constructor
      · simp only [hslice, List.append_assoc]
      · simp only [hslice, List.length_append, htake, List.length_cons,
          List.length_nil]
        omega
  · rw [if_neg hc]
    refine ⟨⟨_, by rw [List.append_assoc]⟩, ?_, ?_, ?_⟩
    · simp only [List.length_append, List.length_cons, List.length_nil]
      omega
    · intro _
      simp [List.append_assoc]
    · intro hover
      omega

/-- C6 witness: a 40-character URL and an over-long text, truncated to a
280-character post. -/
theorem post_tweet_hosted_url_fallback_witness :
    (("m".data : Str) ∈ (["m".data] : List Str)) ∧
      (List.replicate 40 'u' ≠ ([] : Str)) ∧
      (List.replicate 40 'u' : Str).length ≤ 276 ∧
      (post_tweet (List.replicate 300 't') (some "m".data) ["m".data]
        UploadOutcome.forbidden (some (List.replicate 40 'u'))
        "i".data "j".data).1.tweetText.length = 280 := by
  have h := post_tweet_hosted_url_fallback (List.replicate 300 't') "m".data
    ["m".data] "i".data "j".data (List.replicate 40 'u')
    (by decide) (by decide) (by decide)
  exact ⟨by decide, by decide, by decide, (h.2.2.2 (by decide)).2⟩

/-! ## Claim C5 -/

/-- C5: if gathering the enabled news categories yields zero items,
`run` returns exactly the record `{success: false, error: "No news items
found"}` (all other keys absent), performs no summarization, formatting,
media acquisition or publishing, and leaves the filesystem untouched. -/
theorem run_no_news (opts : RunOpts) (oa : Except Unit Str)
    (mediaResult : Option Str) (upload : UploadOutcome)
    (host_url : Option Str) (idMedia idText : Str) (fs : List Str) :
    run opts [] oa mediaResult upload host_url idMedia idText fs =
      ({success := false, error := some "No news items found".data},
       {summarizeCalled := false, formatCalled := false, mediaCalled := false,
        publishCalled := false}, fs) := rfl

/-! ## Claim C7 -/

/-- C7: with the dry-run option set and at least one gathered news item,
`run` never calls the publisher, deletes any media file that was
generated, and returns `{success: true, dryRun: true}` together with the
formatted tweet text and tier and no tweet id. -/
theorem run_dry_run (opts : RunOpts) (item0 : NewsItem) (rest : List NewsItem)
    (oa : Except Unit Str) (mediaResult : Option Str) (upload : UploadOutcome)
    (host_url : Option Str) (idMedia idText : Str) (fs : List Str)
    (hdry : opts.dry_run = true) :
    (run opts (item0 :: rest) oa mediaResult upload host_url idMedia idText
        fs).2.1.publishCalled = false ∧
      (∀ q, (if opts.use_image then mediaResult else none) = some q →
        q ∉ (run opts (item0 :: rest) oa mediaResult upload host_url idMedia
          idText fs).2.2) ∧
      (run opts (item0 :: rest) oa mediaResult upload host_url idMedia idText
          fs).1 =
        {success := true, dryRun := some true,
         tweetText := some (build_tweet_text
           (summarize_news oa (item0 :: rest)).1
           (summarize_news oa (item0 :: rest)).2).1,
         format := some (build_tweet_text
           (summarize_news oa (item0 :: rest)).1
           (summarize_news oa (item0 :: rest)).2).2} := by
  simp only [run, hdry, if_pos]
  refine ⟨trivial, ?_, trivial⟩
  intro q hq
  rw [hq]
  exact not_mem_unlink fs q

/-- C7 witness: a concrete dry run with a generated media file. -/
theorem run_dry_run_witness :
    ((⟨true, "screenshot".data, "crypto-chart".data, true, false⟩ :
        RunOpts).dry_run = true) ∧
      (run ⟨true, "screenshot".data, "crypto-chart".data, true, false⟩
        [⟨"A".data, [], [], [], []⟩] (Except.error ()) (some "m.png".data)
        UploadOutcome.ok none "i".data "j".data
        ["m.png".data]).2.1.publishCalled = false ∧
      "m.png".data ∉ (run ⟨true, "screenshot".data, "crypto-chart".data,
        true, false⟩ [⟨"A".data, [], [], [], []⟩] (Except.error ())
        (some "m.png".data) UploadOutcome.ok none "i".data "j".data
        ["m.png".data]).2.2 ∧
      (run ⟨true, "screenshot".data, "crypto-chart".data, true, false⟩
        [⟨"A".data, [], [], [], []⟩] (Except.error ()) (some "m.png".data)
        UploadOutcome.ok none "i".data "j".data
        ["m.png".data]).1.dryRun = some true := by
  have h := run_dry_run ⟨true, "screenshot".data, "crypto-chart".data, true,
    false⟩ ⟨"A".data, [], [], [], []⟩ [] (Except.error ()) (some "m.png".data)
    UploadOutcome.ok none "i".data "j".data ["m.png".data] rfl
  exact ⟨rfl, h.1, h.2.1 "m.png".data (by decide), by rw [h.2.2]⟩

/-! ## Claim C3 -/

/-- C3 (code-bug evidence): with pyppeteer importable and a Chromium
executable found, but the `launch(...)` call failing, the exception
propagates out of `_capture_screenshot` — the `launch` call sits before
the `try` block (src/bot.py line 587) — and likewise out of
`generate_screenshot` via `asyncio.run`, instead of being converted to a
`None` result as the claim and the spec require. -/
theorem capture_screenshot_launch_failure_propagates :
    capture_screenshot ⟨true, true, false, true, true, 5000, "s.png".data⟩ =
        Except.error () ∧
      generate_screenshot "crypto-chart".data
        ⟨true, true, false, true, true, 5000, "s.png".data⟩ none =
        Except.error () :=
  ⟨rfl, rfl⟩

end Bot
